import Mathlib

/-!
Verification of the food-swipe Django application (apps: dishes, swipes,
community, accounts).  Python view functions and model methods are embedded
as pure Lean functions over explicit database states; machine floats on
database rows are modelled as rationals, and the real-valued haversine
formula over the reals.
-/

set_option maxHeartbeats 1000000

namespace FoodSwipe

/-! ## Basic string helpers (Python truthiness and case-insensitive contains) -/

/-- Python truthiness of an optional string: None and the empty string are falsy. -/
def truthyStr : Option String → Bool
  | none => false
  | some s => s != ""

/-- Bool test of one character list being a leading segment of another. -/
def charsLead : List Char → List Char → Bool
  | [], _ => true
  | _ :: _, [] => false
  | c :: cs, d :: ds => c == d && charsLead cs ds

/-- Bool test of the needle occurring as a contiguous run inside the haystack. -/
def charsContain (hay needle : List Char) : Bool :=
  match hay with
  | [] => needle.isEmpty
  | _ :: cs => charsLead needle hay || charsContain cs needle

/-- Django icontains lookup: case-insensitive substring test. -/
def icontains (hay needle : String) : Bool :=
  charsContain (hay.data.map Char.toLower) (needle.data.map Char.toLower)

/-! ## dishes/time_utils.py -/

/-- Embedding of get_current_meal_type from dishes/time_utils.py, as a function
of the local hour and minute extracted from the current time (the only parts of
the current time the Python body reads). -/
def get_current_meal_type (hour minute : Nat) : String :=
  let total_minutes := hour * 60 + minute
  let breakfast_start := 6 * 60
  let breakfast_end := 10 * 60
  let lunch_start := 10 * 60 + 30
  let lunch_end := 16 * 60 + 30
  let dinner_start := 17 * 60
  let dinner_end := 23 * 60 + 30
  if breakfast_start ≤ total_minutes ∧ total_minutes ≤ breakfast_end then
    "breakfast"
  else if lunch_start ≤ total_minutes ∧ total_minutes ≤ lunch_end then
    "lunch"
  else if dinner_start ≤ total_minutes ∧ total_minutes ≤ dinner_end then
    "dinner"
  else if total_minutes < breakfast_start then
    "breakfast"
  else if breakfast_end < total_minutes ∧ total_minutes < lunch_start then
    "breakfast"
  else if lunch_end < total_minutes ∧ total_minutes < dinner_start then
    "dinner"
  else
    "dinner"

/-! ## Data model (dishes/models.py, swipes/models.py, accounts/models.py) -/

/-- A DishIngredient row (dishes/models.py). -/
structure DishIngredient where
  name : String
  is_allergen : Bool
deriving DecidableEq

/-- A Dish row (dishes/models.py), restricted to the fields the verified views
read or write; float columns are modelled as rationals. -/
structure Dish where
  id : Nat
  name : String
  is_active : Bool
  meal_type : String
  is_vegetarian : Bool
  is_vegan : Bool
  cuisine_id : Option Nat
  average_rating : ℚ
  total_swipes : Int
  total_right_swipes : Int
  ingredients : List DishIngredient
deriving DecidableEq

/-- A Restaurant row (dishes/models.py); latitude and longitude are nullable
float columns, modelled as optional rationals. -/
structure Restaurant where
  id : Nat
  is_active : Bool
  latitude : Option ℚ
  longitude : Option ℚ
deriving DecidableEq

/-- A RestaurantDish row (dishes/models.py). -/
structure RestaurantDish where
  restaurant_id : Nat
  dish_id : Nat
  is_available : Bool
deriving DecidableEq

/-- A SwipeAction row (swipes/models.py): one directional vote of a user on a
dish; direction is the string right or left. -/
structure SwipeAction where
  user : Nat
  dish : Nat
  direction : String
deriving DecidableEq

/-- A Blacklist row (swipes/models.py); the dish foreign key is nullable. -/
structure BlacklistRow where
  user : Nat
  blacklist_type : String
  dish : Option Nat
  item_name : String
deriving DecidableEq

/-- The dietary fields of a user Profile (accounts/models.py); allergies is a
comma-separated text column. -/
structure Profile where
  diet_type : String
  allergies : String
deriving DecidableEq

/-- Embedding of Profile.get_allergies_list: split the comma-separated
allergies text and strip each entry; the empty (falsy) text yields no entries. -/
def get_allergies_list (p : Profile) : List String :=
  if p.allergies != "" then (p.allergies.splitOn ",").map String.trim else []

/-- The database tables the verified swipe views touch. -/
structure DB where
  dishes : List Dish
  swipes : List SwipeAction
  blacklist : List BlacklistRow
deriving DecidableEq

/-! ## community/models.py : TrendingDish.calculate_trending_score -/

/-- A TrendingDish row together with the average_rating of its dish
(community/models.py); floats are modelled as rationals. -/
structure TrendingDish where
  recent_swipes_24h : Int
  recent_swipes_7d : Int
  recent_reviews_7d : Int
  dish_average_rating : ℚ
  trending_score : ℚ
deriving DecidableEq

/-- Embedding of TrendingDish.calculate_trending_score: the returned score and
the updated row (the method stores the score in trending_score and saves).
The Python literals 1.5, 1.2, 4.0, 3.5 are the rationals 3/2, 6/5, 4, 7/2. -/
def calculate_trending_score (t : TrendingDish) : TrendingDish × ℚ :=
  let score : ℚ := 0
  let score := score + t.recent_swipes_24h * 10
  let score := score + t.recent_swipes_7d * 2
  let score := score + t.recent_reviews_7d * 15
  let score :=
    if t.dish_average_rating > 4 then score * (3 / 2)
    else if t.dish_average_rating > 7 / 2 then score * (6 / 5)
    else score
  ({ t with trending_score := score }, score)

/-- Modelled from the words of the spec sentence for the trending score (used
only to compare the spec reading against the code): one threshold, one flat
multiplier applied exactly when the rating exceeds the threshold. -/
def claimed_trending_score (threshold multiplier : ℚ) (t : TrendingDish) : ℚ :=
  let base : ℚ := t.recent_swipes_24h * 10 + t.recent_swipes_7d * 2 + t.recent_reviews_7d * 15
  if t.dish_average_rating > threshold then base * multiplier else base

/-! ## dishes/maps_service.py : GoogleMapsService -/

/-- Outcome of one external SerpApi call: the parsed result payload, or a
raised exception carrying a message. -/
inductive ApiOutcome (α : Type) where
  | ok : α → ApiOutcome α
  | raised : String → ApiOutcome α
deriving DecidableEq

/-- The Python try/except fallback around a body that may raise: a raised
exception inside the body degrades to the empty list. -/
def tryCatchEmpty {α : Type} (body : Except String (List α)) : List α :=
  match body with
  | Except.ok l => l
  | Except.error _ => []

/-- Embedding of GoogleMapsService.search_restaurants.  The api key is the
optional SERPAPI_KEY setting; the external GoogleSearch call is the outcome
argument, its ok payload being the local_results list of the response dict. -/
def search_restaurants {α : Type} (api_key : Option String)
    (outcome : ApiOutcome (List α)) (num_results : Nat) : List α :=
  if !truthyStr api_key then []
  else
    tryCatchEmpty
      (match outcome with
       | ApiOutcome.raised msg => Except.error msg
       | ApiOutcome.ok local_results =>
         if local_results.isEmpty then Except.ok []
         else Except.ok (local_results.take num_results))

/-- Embedding of GoogleMapsService.get_place_reviews.  The external call is the
outcome argument, its ok payload being the reviews list of the response dict. -/
def get_place_reviews {α : Type} (api_key : Option String) (data_id : Option String)
    (outcome : ApiOutcome (List α)) (num_reviews : Nat) : List α :=
  if !truthyStr api_key then []
  else if !truthyStr data_id then []
  else
    tryCatchEmpty
      (match outcome with
       | ApiOutcome.raised msg => Except.error msg
       | ApiOutcome.ok reviews => Except.ok (reviews.take num_reviews))

/-! ## dishes/location_utils.py -/

/-- Embedding of haversine_distance: great-circle distance in miles between two
points given in decimal degrees (earth radius 3959 miles); math.radians x is
x times pi over 180. -/
noncomputable def haversine_distance (lat1 lon1 lat2 lon2 : ℝ) : ℝ :=
  let lon1r := lon1 * Real.pi / 180
  let lat1r := lat1 * Real.pi / 180
  let lon2r := lon2 * Real.pi / 180
  let lat2r := lat2 * Real.pi / 180
  let dlon := lon2r - lon1r
  let dlat := lat2r - lat1r
  let a := Real.sin (dlat / 2) ^ 2 + Real.cos lat1r * Real.cos lat2r * Real.sin (dlon / 2) ^ 2
  let c := 2 * Real.arcsin (Real.sqrt a)
  3959 * c

/-- haversine_distance applied to the rational coordinates stored on rows. -/
noncomputable def haversineQ (lat1 lon1 lat2 lon2 : ℚ) : ℝ :=
  haversine_distance lat1 lon1 lat2 lon2

/-- Python truthiness of the two nullable coordinate columns as tested by
filter_nearby_restaurants: both non-null and nonzero. -/
def restaurantTruthyCoords (r : Restaurant) : Bool :=
  (match r.latitude with
   | some x => x != 0
   | none => false) &&
  (match r.longitude with
   | some x => x != 0
   | none => false)

/-- Embedding of filter_nearby_restaurants, parametric in the distance
function the loop calls (the code calls haversine_distance): keep restaurants
with truthy coordinates within max_distance_miles, annotate each with its
distance, and sort ascending by distance (Python list.sort is a stable merge
sort). -/
def filter_nearby_restaurants {α : Type} [LinearOrder α] (dist : ℚ → ℚ → ℚ → ℚ → α)
    (restaurants : List Restaurant) (user_lat user_lng : ℚ) (max_distance_miles : α) :
    List (Restaurant × α) :=
  let nearby_restaurants :=
    (restaurants.filter restaurantTruthyCoords).filterMap (fun r =>
      let distance := dist user_lat user_lng (r.latitude.getD 0) (r.longitude.getD 0)
      if distance ≤ max_distance_miles then some (r, distance) else none)
  nearby_restaurants.mergeSort (fun p q => decide (p.2 ≤ q.2))

/-- Embedding of get_dishes_from_nearby_restaurants, parametric in the distance
function (the code calls haversine_distance): ids of available RestaurantDish
rows at active restaurants with non-null coordinates within
max_distance_miles, deduplicated as by the distinct() queryset. -/
def get_dishes_from_nearby_restaurants {α : Type} [LinearOrder α]
    (dist : ℚ → ℚ → ℚ → ℚ → α) (restaurants : List Restaurant)
    (restaurant_dishes : List RestaurantDish) (user_lat user_lng : ℚ)
    (max_distance_miles : α) : List Nat :=
  let all_restaurants :=
    restaurants.filter (fun r => r.is_active && r.latitude.isSome && r.longitude.isSome)
  let nearby_restaurants :=
    (all_restaurants.filter (fun r =>
      decide (dist user_lat user_lng (r.latitude.getD 0) (r.longitude.getD 0)
        ≤ max_distance_miles))).map (fun r => r.id)
  let dish_ids :=
    ((restaurant_dishes.filter (fun rd =>
      nearby_restaurants.contains rd.restaurant_id && rd.is_available)).map
        (fun rd => rd.dish_id)).dedup
  dish_ids

/-! ## swipes/views.py : swipe_feed_view candidate pipeline -/

/-- The dish ids of the dish-type blacklist rows of the user with a non-null
dish foreign key (the blacklisted_dish_ids queryset of swipe_feed_view). -/
def blacklisted_dish_ids (db : DB) (user : Nat) : List Nat :=
  (db.blacklist.filter (fun b =>
    b.user == user && b.blacklist_type == "dish" && b.dish.isSome)).filterMap
      (fun b => b.dish)

/-- The dish ids the user has right-swiped (the right_swiped_dish_ids queryset
of swipe_feed_view; the comment there says left swipes can come back). -/
def right_swiped_dish_ids (db : DB) (user : Nat) : List Nat :=
  (db.swipes.filter (fun s => s.user == user && s.direction == "right")).map
    (fun s => s.dish)

/-- The initial queryset of swipe_feed_view: active dishes, excluding
right-swiped and blacklisted dish ids. -/
def base_dishes (db : DB) (user : Nat) : List Dish :=
  db.dishes.filter (fun d =>
    d.is_active
    && !((right_swiped_dish_ids db user).contains d.id)
    && !((blacklisted_dish_ids db user).contains d.id))

/-- The meal-type step of swipe_feed_view: an explicit meal filter narrows to
that meal type, the explicit value all keeps everything, and with no filter the
current meal type is used only when it leaves some dishes.  Returns the
narrowed list and the selected_meal string. -/
def apply_meal_filter (dishes : List Dish) (meal_filter : Option String)
    (current_meal_type : String) : List Dish × String :=
  if truthyStr meal_filter && meal_filter != some "all" then
    (dishes.filter (fun d => d.meal_type == meal_filter.getD ""), meal_filter.getD "")
  else if meal_filter == some "all" then
    (dishes, "all")
  else
    let current_meal_dishes := dishes.filter (fun d => d.meal_type == current_meal_type)
    if !current_meal_dishes.isEmpty then (current_meal_dishes, current_meal_type)
    else (dishes, "all")

/-- The dietary step of swipe_feed_view: an explicit dietary filter wins,
otherwise the profile diet_type applies. -/
def apply_dietary_filter (dishes : List Dish) (dietary_filter : Option String)
    (p : Profile) : List Dish :=
  if truthyStr dietary_filter && dietary_filter != some "all" then
    if dietary_filter == some "vegetarian" then dishes.filter (fun d => d.is_vegetarian)
    else if dietary_filter == some "vegan" then dishes.filter (fun d => d.is_vegan)
    else if dietary_filter == some "non_veg" then
      dishes.filter (fun d => !d.is_vegetarian && !d.is_vegan)
    else dishes
  else if p.diet_type == "vegetarian" then dishes.filter (fun d => d.is_vegetarian)
  else if p.diet_type == "vegan" then dishes.filter (fun d => d.is_vegan)
  else dishes

/-- The exclude lookup of the allergy loop body: the dish has some ingredient
whose name icontains the allergy and which is flagged as an allergen. -/
def dish_matches_allergy (d : Dish) (allergy : String) : Bool :=
  d.ingredients.any (fun i => icontains i.name allergy && i.is_allergen)

/-- The allergy step of swipe_feed_view: when the profile allergies text is
truthy, exclude, for each parsed allergy in turn, every dish matching it. -/
def apply_allergy_filter (dishes : List Dish) (p : Profile) : List Dish :=
  if p.allergies != "" then
    (get_allergies_list p).foldl
      (fun acc allergy => acc.filter (fun d => !dish_matches_allergy d allergy)) dishes
  else dishes

/-- The cuisine step of swipe_feed_view, with the GET string already parsed to
an optional cuisine id (none covers the absent and the all values): the filter
applies only when the id names an existing Cuisine row, a missing row being
swallowed by the except branch. -/
def apply_cuisine_filter (dishes : List Dish) (cuisine_filter : Option Nat)
    (cuisine_ids : List Nat) : List Dish :=
  match cuisine_filter with
  | some cid =>
    if cuisine_ids.contains cid then dishes.filter (fun d => d.cuisine_id == some cid)
    else dishes
  | none => dishes

/-- The location step of swipe_feed_view: with a user location (the nearby
argument is the id list from get_dishes_from_nearby_restaurants), narrow to
nearby dish ids only when that list is non-empty and the narrowing leaves some
dishes. -/
def apply_location_filter (dishes : List Dish) (nearby : Option (List Nat)) : List Dish :=
  match nearby with
  | some nearby_dish_ids =>
    if nearby_dish_ids.isEmpty then dishes
    else
      let nearby_dishes := dishes.filter (fun d => nearby_dish_ids.contains d.id)
      if !nearby_dishes.isEmpty then nearby_dishes else dishes
  | none => dishes

/-- The full candidate set swipe_feed_view draws from: the base queryset piped
through the meal, dietary, allergy, cuisine and location steps. -/
def swipe_feed_candidates (db : DB) (user : Nat) (p : Profile)
    (cuisine_filter : Option Nat) (dietary_filter meal_filter : Option String)
    (current_meal_type : String) (cuisine_ids : List Nat)
    (nearby : Option (List Nat)) : List Dish :=
  let base := base_dishes db user
  let stepMeal := (apply_meal_filter base meal_filter current_meal_type).1
  let stepDiet := apply_dietary_filter stepMeal dietary_filter p
  let stepAllergy := apply_allergy_filter stepDiet p
  let stepCuisine := apply_cuisine_filter stepAllergy cuisine_filter cuisine_ids
  apply_location_filter stepCuisine nearby

/-- The final selection of swipe_feed_view: when the candidate count is
positive the dish at the drawn index (random.randint 0 (n-1) draws uniformly
from 0..n-1), otherwise no dish. -/
def feed_pick (candidates : List Dish) (random_index : Nat) : Option Dish :=
  if candidates.length > 0 then candidates.get? random_index else none

/-- The part of the rendered context of swipe_feed_view the claims speak
about; the view always reaches the render call. -/
structure FeedContext where
  dish : Option Dish
  total_available : Nat
deriving DecidableEq

/-- Building the context of swipe_feed_view from the candidate set and the
drawn index: total_available is the candidate count, dish the picked dish. -/
def feed_context (candidates : List Dish) (random_index : Nat) : FeedContext :=
  { dish := feed_pick candidates random_index
    total_available := candidates.length }

/-! ## swipes/views.py : swipe_action_view and delete_match_view -/

/-- Embedding of the POST branch of swipe_action_view: get_object_or_404 on
the dish id (none when absent), get_or_create of the (user, dish) SwipeAction
with the submitted direction, updating the direction of the existing row when
one exists, then incrementing the dish counters. -/
def swipe_action_view (db : DB) (user dish_id : Nat) (direction : String) : Option DB :=
  if db.dishes.any (fun d => d.id == dish_id) then
    let swipes :=
      if db.swipes.any (fun s => s.user == user && s.dish == dish_id) then
        db.swipes.map (fun s =>
          if s.user == user && s.dish == dish_id then { s with direction := direction }
          else s)
      else
        db.swipes ++ [{ user := user, dish := dish_id, direction := direction }]
    let dishes :=
      db.dishes.map (fun d =>
        if d.id == dish_id then
          { d with
            total_swipes := d.total_swipes + 1
            total_right_swipes :=
              d.total_right_swipes + (if direction == "right" then 1 else 0) }
        else d)
    some { db with swipes := swipes, dishes := dishes }
  else
    none

/-- The queryset predicate of delete_match_view: the right-direction swipe of
the user on the dish. -/
def is_right_match (user dish_id : Nat) (s : SwipeAction) : Bool :=
  s.user == user && s.dish == dish_id && s.direction == "right"

/-- Embedding of delete_match_view: delete the first right-direction swipe of
the user on the dish when one exists, otherwise change nothing (the view only
emits a message). -/
def delete_match_view (db : DB) (user dish_id : Nat) : DB :=
  if db.swipes.any (is_right_match user dish_id) then
    { db with swipes := db.swipes.eraseP (is_right_match user dish_id) }
  else
    db

/-- The uniqueness invariant of the SwipeAction table declared by
unique_together user, dish: no two rows share the (user, dish) key. -/
def swipe_key_unique (swipes : List SwipeAction) : Prop :=
  swipes.Pairwise (fun a b => ¬(a.user = b.user ∧ a.dish = b.dish))

instance (swipes : List SwipeAction) : Decidable (swipe_key_unique swipes) :=
  inferInstanceAs
    (Decidable (swipes.Pairwise (fun a b : SwipeAction => ¬(a.user = b.user ∧ a.dish = b.dish))))

/-! ## Theorems -/

/-- C5: get_current_meal_type is a fixed lookup on the local hour and minute;
for every minute of the day it returns exactly one of breakfast, lunch and
dinner, with breakfast on 6:00 AM through 10:00 AM, lunch on 10:30 AM through
4:30 PM, dinner on 5:00 PM through 11:30 PM (all inclusive), and the gaps
mapped to the nearest meal: before 6:00 AM and 10:01 through 10:29 AM to
breakfast, 4:31 through 4:59 PM and after 11:30 PM to dinner. -/
theorem C5_meal_type_lookup : ∀ t : Fin 1440,
    get_current_meal_type (t.val / 60) (t.val % 60) =
      (if 360 ≤ t.val ∧ t.val ≤ 600 then "breakfast"
       else if 630 ≤ t.val ∧ t.val ≤ 990 then "lunch"
       else if 1020 ≤ t.val ∧ t.val ≤ 1410 then "dinner"
       else if t.val < 360 then "breakfast"
       else if 600 < t.val ∧ t.val < 630 then "breakfast"
       else if 990 < t.val ∧ t.val < 1020 then "dinner"
       else "dinner") := by
  intro t
  have hdm : t.val / 60 * 60 + t.val % 60 = t.val := by omega
  simp only [get_current_meal_type, hdm]

/-- C3 counterexample: no single threshold with a single flat multiplier
reproduces calculate_trending_score; the code applies 1.2 at rating 3.8 but
1.5 at rating 4.5 on the same base score 10. -/
theorem C3_counterexample :
    ¬ ∃ threshold multiplier : ℚ, ∀ t : TrendingDish,
      (calculate_trending_score t).2 = claimed_trending_score threshold multiplier t := by
  rintro ⟨th, m, h⟩
  have h1 := h { recent_swipes_24h := 1, recent_swipes_7d := 0, recent_reviews_7d := 0,
                 dish_average_rating := 19 / 5, trending_score := 0 }
  have h2 := h { recent_swipes_24h := 1, recent_swipes_7d := 0, recent_reviews_7d := 0,
                 dish_average_rating := 9 / 2, trending_score := 0 }
  simp only [calculate_trending_score, claimed_trending_score] at h1 h2
  norm_num at h1 h2
  by_cases hth : th < 19 / 5
  · rw [if_pos hth] at h1
    rw [if_pos (lt_trans hth (by norm_num))] at h2
    rw [← h1] at h2
    norm_num at h2
  · rw [if_neg hth] at h1
    norm_num at h1

/-- C3 (amended): calculate_trending_score returns the linear weighted sum of
the 24h swipe count, 7d swipe count and 7d review count with weights 10, 2 and
15, times a tiered multiplier: 1.5 when the average rating exceeds 4.0, else
1.2 when it exceeds 3.5, else 1 (so a bonus is applied iff the rating exceeds
3.5); the result is stored in trending_score and returned. -/
theorem C3_trending_score (t : TrendingDish) :
    (calculate_trending_score t).2 =
      (t.recent_swipes_24h * 10 + t.recent_swipes_7d * 2 + t.recent_reviews_7d * 15) *
        (if t.dish_average_rating > 4 then 3 / 2
         else if t.dish_average_rating > 7 / 2 then 6 / 5
         else 1)
    ∧ (calculate_trending_score t).1.trending_score = (calculate_trending_score t).2 := by
  constructor
  · simp only [calculate_trending_score]
    split_ifs <;> ring
  · rfl

/-- C7: search_restaurants and get_place_reviews never surface an exception:
with a falsy api key (None or empty), a falsy data id, a raised external call,
or an empty payload, both return the empty list. -/
theorem C7_graceful_degradation {α : Type} (api_key data_id : Option String)
    (msg : String) (l : List α) (n : Nat) :
    search_restaurants (none : Option String) (ApiOutcome.ok l) n = [] ∧
    search_restaurants (some "") (ApiOutcome.ok l) n = [] ∧
    search_restaurants api_key (ApiOutcome.raised msg) n = ([] : List α) ∧
    search_restaurants api_key (ApiOutcome.ok ([] : List α)) n = [] ∧
    get_place_reviews (none : Option String) data_id (ApiOutcome.ok l) n = [] ∧
    get_place_reviews (some "") data_id (ApiOutcome.ok l) n = [] ∧
    get_place_reviews api_key (none : Option String) (ApiOutcome.ok l) n = [] ∧
    get_place_reviews api_key (some "") (ApiOutcome.ok l) n = [] ∧
    get_place_reviews api_key data_id (ApiOutcome.raised msg) n = ([] : List α) ∧
    get_place_reviews api_key data_id (ApiOutcome.ok ([] : List α)) n = [] := by
  cases hk : truthyStr api_key <;> cases hd : truthyStr data_id <;>
    simp [search_restaurants, get_place_reviews, tryCatchEmpty, truthyStr, hk, hd]

/-- Membership in the nearby dish id scan, for any distance function: exactly
the available dishes of an active, coordinate-bearing restaurant within the
distance bound. -/
theorem mem_get_dishes_from_nearby {α : Type} [LinearOrder α]
    (dist : ℚ → ℚ → ℚ → ℚ → α) (restaurants : List Restaurant)
    (rds : List RestaurantDish) (ulat ulng : ℚ) (maxd : α) (did : Nat) :
    did ∈ get_dishes_from_nearby_restaurants dist restaurants rds ulat ulng maxd ↔
      ∃ rd ∈ rds, rd.dish_id = did ∧ rd.is_available = true ∧
        ∃ r ∈ restaurants, r.id = rd.restaurant_id ∧ r.is_active = true ∧
          ∃ la lo : ℚ, r.latitude = some la ∧ r.longitude = some lo ∧
            dist ulat ulng la lo ≤ maxd := by
  simp only [get_dishes_from_nearby_restaurants, List.mem_dedup, List.mem_map,
    List.mem_filter, Bool.and_eq_true, List.contains, List.elem_eq_mem, decide_eq_true_eq,
    Option.isSome_iff_exists]
  constructor
  · rintro ⟨rd, ⟨hrd, ⟨r, ⟨⟨hr, ⟨hact, la, hla⟩, lo, hlo⟩, hdist⟩, hrid⟩, hav⟩, hdid⟩
    rw [hla, hlo] at hdist
    simp only [Option.getD_some] at hdist
    exact ⟨rd, hrd, hdid, hav, r, hr, hrid, hact, la, lo, hla, hlo, hdist⟩
  · rintro ⟨rd, hrd, hdid, hav, r, hr, hrid, hact, la, lo, hla, hlo, hdist⟩
    refine ⟨rd, ⟨hrd, ⟨r, ⟨⟨hr, ⟨hact, la, hla⟩, lo, hlo⟩, ?_⟩, hrid⟩, hav⟩, hdid⟩
    rw [hla, hlo]
    simp only [Option.getD_some]
    exact hdist

/-- C4: for every database of restaurants and restaurant-dish rows and every
user coordinate pair and distance bound, get_dishes_from_nearby_restaurants
applied to the haversine distance (miles, earth radius 3959) returns a
duplicate-free list containing exactly the ids of dishes with an available
RestaurantDish row at some active restaurant with non-null coordinates within
the bound. -/
theorem C4_nearby_dish_ids (restaurants : List Restaurant)
    (rds : List RestaurantDish) (ulat ulng : ℚ) (maxd : ℝ) (did : Nat) :
    (did ∈ get_dishes_from_nearby_restaurants haversineQ restaurants rds ulat ulng maxd ↔
      ∃ rd ∈ rds, rd.dish_id = did ∧ rd.is_available = true ∧
        ∃ r ∈ restaurants, r.id = rd.restaurant_id ∧ r.is_active = true ∧
          ∃ la lo : ℚ, r.latitude = some la ∧ r.longitude = some lo ∧
            haversineQ ulat ulng la lo ≤ maxd)
    ∧ (get_dishes_from_nearby_restaurants haversineQ restaurants rds ulat ulng maxd).Nodup := by
  refine ⟨mem_get_dishes_from_nearby haversineQ restaurants rds ulat ulng maxd did, ?_⟩
  simp only [get_dishes_from_nearby_restaurants]
  exact List.nodup_dedup _

/-- The sorted-and-exact characterisation of filter_nearby_restaurants for any
distance function. -/
theorem filter_nearby_restaurants_spec {α : Type} [LinearOrder α]
    (dist : ℚ → ℚ → ℚ → ℚ → α) (restaurants : List Restaurant)
    (ulat ulng : ℚ) (maxd : α) :
    List.Pairwise (fun p q : Restaurant × α => p.2 ≤ q.2)
      (filter_nearby_restaurants dist restaurants ulat ulng maxd)
    ∧ ∀ (r : Restaurant) (d : α),
      (r, d) ∈ filter_nearby_restaurants dist restaurants ulat ulng maxd ↔
        r ∈ restaurants ∧ restaurantTruthyCoords r = true ∧
        d = dist ulat ulng (r.latitude.getD 0) (r.longitude.getD 0) ∧ d ≤ maxd := by
  constructor
  · have hs := @List.sorted_mergeSort (Restaurant × α)
      (fun p q => decide (p.2 ≤ q.2))
      (fun a b c h1 h2 => by
        simp only [decide_eq_true_eq] at h1 h2 ⊢
        exact le_trans h1 h2)
      (fun a b => by
        simp only [Bool.or_eq_true, decide_eq_true_eq]
        exact le_total a.2 b.2)
      ((restaurants.filter restaurantTruthyCoords).filterMap (fun r =>
        let distance := dist ulat ulng (r.latitude.getD 0) (r.longitude.getD 0)
        if distance ≤ maxd then some (r, distance) else none))
    refine List.Pairwise.imp ?_ hs
    intro a b h
    simpa using h
  · intro r d
    simp only [filter_nearby_restaurants, List.mem_mergeSort, List.mem_filterMap,
      List.mem_filter]
    constructor
    · rintro ⟨r', ⟨hr', htruthy⟩, hsome⟩
      by_cases hd : dist ulat ulng (r'.latitude.getD 0) (r'.longitude.getD 0) ≤ maxd
      · rw [if_pos hd, Option.some.injEq, Prod.mk.injEq] at hsome
        obtain ⟨rfl, rfl⟩ := hsome
        exact ⟨hr', htruthy, rfl, hd⟩
      · rw [if_neg hd] at hsome
        exact absurd hsome (by simp)
    · rintro ⟨hr, htruthy, hd, hle⟩
      refine ⟨r, ⟨hr, htruthy⟩, ?_⟩
      subst hd
      rw [if_pos hle]

/-- A restaurant lying on the equator: its latitude is set (non-null) but
equal to 0, which Python truthiness treats as falsy. -/
def zeroLatRestaurant : Restaurant :=
  { id := 1, is_active := true, latitude := some 0, longitude := some (-75) }

/-- C8 counterexample: a restaurant with both coordinates set (latitude 0,
longitude -75) and at haversine distance 0 from the user is nevertheless
dropped by filter_nearby_restaurants, because the Python truthiness test
rejects a zero coordinate; so the output does not contain exactly the
coordinate-bearing restaurants within range. -/
theorem C8_counterexample :
    zeroLatRestaurant.latitude.isSome = true ∧
    zeroLatRestaurant.longitude.isSome = true ∧
    haversineQ 0 (-75) 0 (-75) ≤ (10 : ℝ) ∧
    filter_nearby_restaurants haversineQ [zeroLatRestaurant] 0 (-75) (10 : ℝ) = [] := by
  have h0 : haversineQ 0 (-75) 0 (-75) = 0 := by
    simp [haversineQ, haversine_distance]
  refine ⟨rfl, rfl, by rw [h0]; norm_num, ?_⟩
  simp [filter_nearby_restaurants, restaurantTruthyCoords, zeroLatRestaurant]

/-- C8 (amended): filter_nearby_restaurants with the haversine distance
returns a list sorted in non-decreasing distance order containing exactly the
input restaurants with truthy coordinates (both set and nonzero, per the
Python truthiness test) within max_distance_miles, each annotated with its
computed haversine distance. -/
theorem C8_filter_nearby (restaurants : List Restaurant) (ulat ulng : ℚ) (maxd : ℝ) :
    List.Pairwise (fun p q : Restaurant × ℝ => p.2 ≤ q.2)
      (filter_nearby_restaurants haversineQ restaurants ulat ulng maxd)
    ∧ ∀ (r : Restaurant) (d : ℝ),
      (r, d) ∈ filter_nearby_restaurants haversineQ restaurants ulat ulng maxd ↔
        r ∈ restaurants ∧ restaurantTruthyCoords r = true ∧
        d = haversineQ ulat ulng (r.latitude.getD 0) (r.longitude.getD 0) ∧ d ≤ maxd :=
  filter_nearby_restaurants_spec haversineQ restaurants ulat ulng maxd

/-- The meal step only narrows the queryset. -/
theorem apply_meal_filter_subset (dishes : List Dish) (mf : Option String) (cur : String) :
    (apply_meal_filter dishes mf cur).1 ⊆ dishes := by
  simp only [apply_meal_filter]
  split_ifs <;> first | exact List.filter_subset' _ | exact fun x h => h

/-- The dietary step only narrows the queryset. -/
theorem apply_dietary_filter_subset (dishes : List Dish) (df : Option String) (p : Profile) :
    apply_dietary_filter dishes df p ⊆ dishes := by
  simp only [apply_dietary_filter]
  split_ifs <;> first | exact List.filter_subset' _ | exact fun x h => h

/-- The cuisine step only narrows the queryset. -/
theorem apply_cuisine_filter_subset (dishes : List Dish) (cf : Option Nat) (ids : List Nat) :
    apply_cuisine_filter dishes cf ids ⊆ dishes := by
  cases cf with
  | none => exact fun x h => h
  | some cid =>
    simp only [apply_cuisine_filter]
    split_ifs <;> first | exact List.filter_subset' _ | exact fun x h => h

/-- The location step only narrows the queryset. -/
theorem apply_location_filter_subset (dishes : List Dish) (nearby : Option (List Nat)) :
    apply_location_filter dishes nearby ⊆ dishes := by
  cases nearby with
  | none => exact fun x h => h
  | some ids =>
    simp only [apply_location_filter]
    split_ifs <;> first | exact List.filter_subset' _ | exact fun x h => h

/-- Membership in an iterated filter fold: in the start list and passing every
filter of the chain. -/
theorem mem_foldl_filter (p : String → Dish → Bool) (l : List String)
    (init : List Dish) (d : Dish) :
    d ∈ l.foldl (fun acc a => acc.filter (p a)) init ↔
      d ∈ init ∧ ∀ a ∈ l, p a d = true := by
  induction l generalizing init with
  | nil => simp
  | cons x xs ih =>
    simp only [List.foldl_cons, ih, List.mem_filter]
    constructor
    · rintro ⟨⟨hd, hx⟩, hall⟩
      refine ⟨hd, fun a ha => ?_⟩
      rcases List.mem_cons.mp ha with rfl | ha
      · exact hx
      · exact hall a ha
    · rintro ⟨hd, hall⟩
      exact ⟨⟨hd, hall x (List.mem_cons_self x xs)⟩,
        fun a ha => hall a (List.mem_cons_of_mem x ha)⟩

/-- A member of the allergy step is a member of its input matching none of the
profile allergies. -/
theorem mem_apply_allergy_filter (dishes : List Dish) (p : Profile) (d : Dish)
    (h : d ∈ apply_allergy_filter dishes p) :
    d ∈ dishes ∧ ∀ a ∈ get_allergies_list p, dish_matches_allergy d a = false := by
  simp only [apply_allergy_filter] at h
  split_ifs at h with hp
  · have hchar := (mem_foldl_filter (fun a d => !dish_matches_allergy d a)
      (get_allergies_list p) dishes d).mp h
    refine ⟨hchar.1, fun a ha => ?_⟩
    have := hchar.2 a ha
    simpa using this
  · refine ⟨h, fun a ha => ?_⟩
    rw [get_allergies_list, if_neg hp] at ha
    exact absurd ha (List.not_mem_nil a)

/-- A member of the base queryset is an active dish the user has neither
right-swiped nor dish-blacklisted. -/
theorem mem_base_dishes (db : DB) (user : Nat) (d : Dish) (h : d ∈ base_dishes db user) :
    d ∈ db.dishes ∧ d.is_active = true ∧
    d.id ∉ right_swiped_dish_ids db user ∧ d.id ∉ blacklisted_dish_ids db user := by
  have hf := List.mem_filter.mp h
  refine ⟨hf.1, ?_⟩
  have hb := hf.2
  simp only [Bool.and_eq_true, Bool.not_eq_true', List.contains, List.elem_eq_mem,
    decide_eq_false_iff_not] at hb
  exact ⟨hb.1.1, hb.1.2, hb.2⟩

/-- C1 counterexample: a dish the user has already swiped on (a left swipe)
still appears in the candidate set of swipe_feed_view, so the feed does not
exclude every dish the user has already swiped on. -/
def leftSwipeDish : Dish :=
  { id := 1, name := "Pasta", is_active := true, meal_type := "lunch",
    is_vegetarian := false, is_vegan := false, cuisine_id := none,
    average_rating := 0, total_swipes := 0, total_right_swipes := 0, ingredients := [] }

/-- A database in which user 7 has left-swiped the only dish. -/
def leftSwipeDB : DB :=
  { dishes := [leftSwipeDish]
    swipes := [{ user := 7, dish := 1, direction := "left" }]
    blacklist := [] }

/-- A profile with no dietary preference and no allergies. -/
def plainProfile : Profile := { diet_type := "none", allergies := "" }

/-- C1 counterexample theorem: user 7 has swiped on dish 1, yet dish 1 is in
the candidate set built for user 7. -/
theorem C1_counterexample :
    (∃ s ∈ leftSwipeDB.swipes, s.user = 7 ∧ s.dish = leftSwipeDish.id) ∧
    leftSwipeDish ∈ swipe_feed_candidates leftSwipeDB 7 plainProfile
      none none none "lunch" [] none := by
  constructor
  · exact ⟨{ user := 7, dish := 1, direction := "left" }, by decide, by decide⟩
  · decide

/-- C1 (amended): every dish in the candidate set built by swipe_feed_view is
one the user has not right-swiped (left swipes can come back), is not the dish
of any dish-type blacklist row of the user, and has no allergen ingredient
whose name contains (case-insensitively) an entry of the user allergy list. -/
theorem C1_candidate_exclusions (db : DB) (user : Nat) (p : Profile)
    (cuisine_filter : Option Nat) (dietary_filter meal_filter : Option String)
    (current_meal_type : String) (cuisine_ids : List Nat) (nearby : Option (List Nat))
    (d : Dish)
    (hd : d ∈ swipe_feed_candidates db user p cuisine_filter dietary_filter meal_filter
      current_meal_type cuisine_ids nearby) :
    (∀ s ∈ db.swipes, s.user = user → s.direction = "right" → s.dish ≠ d.id) ∧
    (∀ b ∈ db.blacklist, b.user = user → b.blacklist_type = "dish" → b.dish ≠ some d.id) ∧
    (∀ a ∈ get_allergies_list p, dish_matches_allergy d a = false) := by
  simp only [swipe_feed_candidates] at hd
  have h1 := apply_location_filter_subset _ nearby hd
  have h2 := apply_cuisine_filter_subset _ cuisine_filter cuisine_ids h1
  have h3 := mem_apply_allergy_filter _ p d h2
  have h4 := apply_dietary_filter_subset _ dietary_filter p h3.1
  have h5 := apply_meal_filter_subset _ meal_filter current_meal_type h4
  have h6 := mem_base_dishes db user d h5
  refine ⟨?_, ?_, h3.2⟩
  · intro s hs hu hdir heq
    apply h6.2.2.1
    simp only [right_swiped_dish_ids, List.mem_map, List.mem_filter]
    exact ⟨s, ⟨hs, by simp [hu, hdir]⟩, heq⟩
  · intro b hb hu htype heq
    apply h6.2.2.2
    simp only [blacklisted_dish_ids, List.mem_filterMap, List.mem_filter]
    refine ⟨b, ⟨hb, ?_⟩, heq⟩
    simp [hu, htype, heq]

/-- C1 witness: the amended exclusion theorem applied to the concrete database
of the counterexample, whose candidate set contains dish 1. -/
theorem C1_witness :
    (leftSwipeDish ∈ swipe_feed_candidates leftSwipeDB 7 plainProfile
      none none none "lunch" [] none) ∧
    ((∀ s ∈ leftSwipeDB.swipes, s.user = 7 → s.direction = "right" →
        s.dish ≠ leftSwipeDish.id) ∧
     (∀ b ∈ leftSwipeDB.blacklist, b.user = 7 → b.blacklist_type = "dish" →
        b.dish ≠ some leftSwipeDish.id) ∧
     (∀ a ∈ get_allergies_list plainProfile,
        dish_matches_allergy leftSwipeDish a = false)) :=
  ⟨by decide,
   C1_candidate_exclusions leftSwipeDB 7 plainProfile none none none "lunch" [] none
     leftSwipeDish (by decide)⟩

/-- A second concrete dish, distinct from leftSwipeDish. -/
def dishTwo : Dish :=
  { id := 2, name := "Dosa", is_active := true, meal_type := "dinner",
    is_vegetarian := true, is_vegan := false, cuisine_id := some 3,
    average_rating := 4, total_swipes := 5, total_right_swipes := 2, ingredients := [] }

/-- C2: on an empty candidate set swipe_feed_view returns no dish (and still
builds its render context), and on a duplicate-free candidate set of size n
the dish is the one at the drawn index, each candidate being hit by exactly
one of the n equiprobable indices — probability 1 over n under the uniform
draw of random.randint on 0..n-1. -/
theorem C2_uniform_pick (l : List Dish) (hnd : l.Nodup) :
    (∀ i, l.length = 0 → feed_context l i = { dish := none, total_available := 0 }) ∧
    ∀ d ∈ l,
      ((Finset.range l.length).filter (fun i => feed_pick l i = some d)).card = 1 ∧
      (((Finset.range l.length).filter (fun i => feed_pick l i = some d)).card : ℚ)
          / l.length = 1 / l.length := by
  constructor
  · intro i h
    simp [feed_context, feed_pick, h]
  · intro d hd
    have hlen : 0 < l.length := List.length_pos.mpr (List.ne_nil_of_mem hd)
    have hpick : ∀ i, feed_pick l i = l.get? i := fun i => if_pos hlen
    have hidx : l.indexOf d < l.length := List.indexOf_lt_length.mpr hd
    have hcard :
        ((Finset.range l.length).filter (fun i => feed_pick l i = some d)).card = 1 := by
      rw [Finset.card_eq_one]
      refine ⟨l.indexOf d, ?_⟩
      ext i
      simp only [Finset.mem_filter, Finset.mem_range, Finset.mem_singleton, hpick]
      constructor
      · rintro ⟨hi, hget⟩
        obtain ⟨hlt, hgeteq⟩ := List.get?_eq_some.mp hget
        have h2 : l.get ⟨l.indexOf d, hidx⟩ = d := List.indexOf_get hidx
        have h3 : l.get ⟨i, hlt⟩ = l.get ⟨l.indexOf d, hidx⟩ := by rw [hgeteq, h2]
        exact congrArg Fin.val (hnd.get_inj_iff.mp h3)
      · rintro rfl
        refine ⟨hidx, ?_⟩
        rw [List.get?_eq_get hidx, List.indexOf_get hidx]
    exact ⟨hcard, by rw [hcard]; norm_num⟩

/-- C2 witness: the uniform pick theorem applied to a concrete two-dish
candidate list. -/
theorem C2_witness :
    ([leftSwipeDish, dishTwo] : List Dish).Nodup ∧
    ((∀ i, ([leftSwipeDish, dishTwo] : List Dish).length = 0 →
        feed_context [leftSwipeDish, dishTwo] i = { dish := none, total_available := 0 }) ∧
     ∀ d ∈ ([leftSwipeDish, dishTwo] : List Dish),
       ((Finset.range ([leftSwipeDish, dishTwo] : List Dish).length).filter
           (fun i => feed_pick [leftSwipeDish, dishTwo] i = some d)).card = 1 ∧
       (((Finset.range ([leftSwipeDish, dishTwo] : List Dish).length).filter
           (fun i => feed_pick [leftSwipeDish, dishTwo] i = some d)).card : ℚ)
           / ([leftSwipeDish, dishTwo] : List Dish).length
         = 1 / ([leftSwipeDish, dishTwo] : List Dish).length) :=
  ⟨by decide, C2_uniform_pick [leftSwipeDish, dishTwo] (by decide)⟩

/-- The get_or_create update of a swipe row keeps its user key. -/
theorem swipe_update_user (u did : Nat) (dir : String) (s : SwipeAction) :
    (if s.user == u && s.dish == did then { s with direction := dir } else s).user
      = s.user := by
  split_ifs <;> rfl

/-- The get_or_create update of a swipe row keeps its dish key. -/
theorem swipe_update_dish (u did : Nat) (dir : String) (s : SwipeAction) :
    (if s.user == u && s.dish == did then { s with direction := dir } else s).dish
      = s.dish := by
  split_ifs <;> rfl

/-- C6: with the unique_together invariant holding before, a successful
swipe_action_view preserves it; a repeated swipe on an existing (user, dish)
pair keeps the row count unchanged and only updates the stored direction
(every (user, dish) row afterwards carries the submitted direction); and
delete_match_view preserves the invariant as well. -/
theorem C6_swipe_uniqueness (db db' : DB) (u did : Nat) (dir : String)
    (hinv : swipe_key_unique db.swipes)
    (h : swipe_action_view db u did dir = some db') :
    swipe_key_unique db'.swipes ∧
    ((∃ s ∈ db.swipes, s.user = u ∧ s.dish = did) →
      db'.swipes.length = db.swipes.length) ∧
    (∀ s ∈ db'.swipes, s.user = u → s.dish = did → s.direction = dir) ∧
    swipe_key_unique (delete_match_view db u did).swipes := by
  have hdel : swipe_key_unique (delete_match_view db u did).swipes := by
    simp only [delete_match_view]
    split_ifs with hany
    · exact List.Pairwise.sublist (List.eraseP_sublist _) hinv
    · exact hinv
  simp only [swipe_action_view] at h
  by_cases hdish : (db.dishes.any fun d => d.id == did) = true
  · rw [if_pos hdish, Option.some.injEq] at h
    have hsw : db'.swipes =
        (if db.swipes.any (fun s => s.user == u && s.dish == did) then
          db.swipes.map (fun s =>
            if s.user == u && s.dish == did then { s with direction := dir } else s)
        else
          db.swipes ++ [{ user := u, dish := did, direction := dir }]) := by
      rw [← h]
    refine ⟨?_, ?_, ?_, hdel⟩
    · rw [swipe_key_unique, hsw]
      by_cases hc : db.swipes.any (fun s => s.user == u && s.dish == did) = true
      · rw [if_pos hc, List.pairwise_map]
        refine List.Pairwise.imp ?_ hinv
        intro a b hR hkey
        apply hR
        rw [swipe_update_user u did dir a, swipe_update_user u did dir b,
          swipe_update_dish u did dir a, swipe_update_dish u did dir b] at hkey
        exact hkey
      · rw [if_neg hc, List.pairwise_append]
        refine ⟨hinv, by simp, ?_⟩
        intro a ha b hb
        rw [List.mem_singleton] at hb
        subst hb
        intro hkey
        apply hc
        rw [List.any_eq_true]
        exact ⟨a, ha, by simp [hkey.1, hkey.2]⟩
    · intro hex
      have hc : db.swipes.any (fun s => s.user == u && s.dish == did) = true := by
        rw [List.any_eq_true]
        obtain ⟨s, hs, h1, h2⟩ := hex
        exact ⟨s, hs, by simp [h1, h2]⟩
      rw [hsw, if_pos hc, List.length_map]
    · intro s hs hu hdishq
      rw [hsw] at hs
      by_cases hc : db.swipes.any (fun x => x.user == u && x.dish == did) = true
      · rw [if_pos hc] at hs
        obtain ⟨x, hx, hfx⟩ := List.mem_map.mp hs
        by_cases hcond : (x.user == u && x.dish == did) = true
        · rw [if_pos hcond] at hfx
          rw [← hfx]
        · rw [if_neg hcond] at hfx
          subst hfx
          exact absurd (by simp [hu, hdishq]) hcond
      · rw [if_neg hc] at hs
        rcases List.mem_append.mp hs with hmem | hmem
        · exact absurd (List.any_eq_true.mpr ⟨s, hmem, by simp [hu, hdishq]⟩) hc
        · rw [List.mem_singleton] at hmem
          subst hmem
          rfl
  · rw [if_neg hdish] at h
    exact absurd h (by simp)

/-- The database reached from leftSwipeDB by user 7 right-swiping dish 1: the
existing left swipe row is updated in place and both dish counters grow. -/
def c9db : DB :=
  { dishes := [{ leftSwipeDish with total_swipes := 1, total_right_swipes := 1 }]
    swipes := [{ user := 7, dish := 1, direction := "right" }]
    blacklist := [] }

/-- C6 witness: the uniqueness theorem applied to the concrete database in
which user 7 re-swipes the already-swiped dish 1. -/
theorem C6_witness :
    swipe_key_unique leftSwipeDB.swipes ∧
    swipe_action_view leftSwipeDB 7 1 "right" = some c9db ∧
    (swipe_key_unique c9db.swipes ∧
     ((∃ s ∈ leftSwipeDB.swipes, s.user = 7 ∧ s.dish = 1) →
        c9db.swipes.length = leftSwipeDB.swipes.length) ∧
     (∀ s ∈ c9db.swipes, s.user = 7 → s.dish = 1 → s.direction = "right") ∧
     swipe_key_unique (delete_match_view leftSwipeDB 7 1).swipes) :=
  ⟨by decide, by decide,
   C6_swipe_uniqueness leftSwipeDB c9db 7 1 "right" (by decide) (by decide)⟩

/-- C9: every successful POST to swipe_action_view leaves the dish table the
same length, adds exactly 1 to total_swipes of the swiped dish, adds 1 to
total_right_swipes exactly when the submitted direction is right (and 0
otherwise — so a right-to-left change never decrements), and leaves every
other dish row untouched; this holds whether the swipe row was created or
merely updated. -/
theorem C9_swipe_counters (db : DB) (u did : Nat) (dir : String) (db' : DB)
    (h : swipe_action_view db u did dir = some db') :
    db'.dishes.length = db.dishes.length ∧
    ∀ (i : Nat) (d d1 : Dish), db.dishes[i]? = some d → db'.dishes[i]? = some d1 →
      (d.id = did →
        d1.total_swipes = d.total_swipes + 1 ∧
        d1.total_right_swipes =
          d.total_right_swipes + (if dir == "right" then 1 else 0)) ∧
      (d.id ≠ did → d1 = d) := by
  simp only [swipe_action_view] at h
  by_cases hdish : (db.dishes.any fun d => d.id == did) = true
  · rw [if_pos hdish, Option.some.injEq] at h
    have hds : db'.dishes = db.dishes.map (fun d =>
        if d.id == did then
          { d with
            total_swipes := d.total_swipes + 1
            total_right_swipes :=
              d.total_right_swipes + (if dir == "right" then 1 else 0) }
        else d) := by
      rw [← h]
    constructor
    · rw [hds, List.length_map]
    · intro i d d1 hd hd1
      rw [hds, List.getElem?_map, hd, Option.map_some'] at hd1
      rw [Option.some.injEq] at hd1
      by_cases hcond : (d.id == did) = true
      · rw [if_pos hcond] at hd1
        subst hd1
        refine ⟨fun _ => ⟨rfl, rfl⟩, fun hne => absurd (by simpa using hcond) hne⟩
      · rw [if_neg hcond] at hd1
        subst hd1
        refine ⟨fun heq => absurd (by simp [heq]) hcond, fun _ => rfl⟩
  · rw [if_neg hdish] at h
    exact absurd h (by simp)

/-- C9 witness: the counter theorem applied to the concrete database in which
user 7 changes an existing left swipe on dish 1 to a right swipe. -/
theorem C9_witness :
    swipe_action_view leftSwipeDB 7 1 "right" = some c9db ∧
    (c9db.dishes.length = leftSwipeDB.dishes.length ∧
     ∀ (i : Nat) (d d1 : Dish), leftSwipeDB.dishes[i]? = some d → c9db.dishes[i]? = some d1 →
       (d.id = 1 →
         d1.total_swipes = d.total_swipes + 1 ∧
         d1.total_right_swipes =
           d.total_right_swipes + (if "right" == "right" then 1 else 0)) ∧
       (d.id ≠ 1 → d1 = d)) :=
  ⟨by decide, C9_swipe_counters leftSwipeDB 7 1 "right" c9db (by decide)⟩

/-- The Bool queryset predicate of delete_match_view agrees with its Prop
reading. -/
theorem is_right_match_iff (u did : Nat) (s : SwipeAction) :
    is_right_match u did s = true ↔
      (s.user = u ∧ s.dish = did ∧ s.direction = "right") := by
  simp [is_right_match, and_assoc]

/-- C10: delete_match_view never touches the dish or blacklist tables (in
particular total_swipes and total_right_swipes keep their values); when the
user has no right swipe on the dish the whole database is unchanged; and under
the uniqueness invariant the swipe table afterwards holds exactly the previous
rows other than the deleted right swipe of the user on the dish. -/
theorem C10_delete_frame (db : DB) (u did : Nat) :
    (delete_match_view db u did).dishes = db.dishes ∧
    (delete_match_view db u did).blacklist = db.blacklist ∧
    ((∀ s ∈ db.swipes, ¬(s.user = u ∧ s.dish = did ∧ s.direction = "right")) →
      delete_match_view db u did = db) ∧
    (swipe_key_unique db.swipes →
      ∀ s, s ∈ (delete_match_view db u did).swipes ↔
        (s ∈ db.swipes ∧ ¬(s.user = u ∧ s.dish = did ∧ s.direction = "right"))) := by
  refine ⟨?_, ?_, ?_, ?_⟩
  · simp only [delete_match_view]
    split_ifs <;> rfl
  · simp only [delete_match_view]
    split_ifs <;> rfl
  · intro hnone
    simp only [delete_match_view]
    rw [if_neg]
    intro hany
    rw [List.any_eq_true] at hany
    obtain ⟨s, hs, hps⟩ := hany
    exact hnone s hs ((is_right_match_iff u did s).mp hps)
  · intro hinv s
    simp only [delete_match_view]
    split_ifs with hany
    · rw [List.any_eq_true] at hany
      obtain ⟨a, ha, hpa⟩ := hany
      obtain ⟨a1, l1, l2, hl1, hpa1, hsplit, herase⟩ := List.exists_of_eraseP ha hpa
      rw [herase]
      have hpa2 := (is_right_match_iff u did a1).mp hpa1
      constructor
      · intro hmem
        have hmem2 : s ∈ db.swipes := by
          rw [hsplit]
          rcases List.mem_append.mp hmem with hm | hm
          · exact List.mem_append.mpr (Or.inl hm)
          · exact List.mem_append.mpr (Or.inr (List.mem_cons_of_mem _ hm))
        refine ⟨hmem2, ?_⟩
        intro hkey
        have hpw : List.Pairwise
            (fun x y : SwipeAction => ¬(x.user = y.user ∧ x.dish = y.dish))
            (l1 ++ a1 :: l2) := hsplit ▸ hinv
        rcases List.mem_append.mp hmem with hsl | hsl
        · exact (List.pairwise_append.mp hpw).2.2 s hsl a1 (List.mem_cons_self a1 l2)
            ⟨hkey.1.trans hpa2.1.symm, hkey.2.1.trans hpa2.2.1.symm⟩
        · exact (List.pairwise_cons.mp (List.pairwise_append.mp hpw).2.1).1 s hsl
            ⟨hpa2.1.trans hkey.1.symm, hpa2.2.1.trans hkey.2.1.symm⟩
      · rintro ⟨hmem, hkey⟩
        rw [hsplit] at hmem
        rcases List.mem_append.mp hmem with hm | hm
        · exact List.mem_append.mpr (Or.inl hm)
        · rcases List.mem_cons.mp hm with rfl | hm
          · exact absurd hpa2 hkey
          · exact List.mem_append.mpr (Or.inr hm)
    · constructor
      · intro hmem
        refine ⟨hmem, fun hkey => ?_⟩
        apply hany
        rw [List.any_eq_true]
        exact ⟨s, hmem, (is_right_match_iff u did s).mpr hkey⟩
      · exact fun hp => hp.1

/-- C10 witness: the frame theorem applied to the concrete database in which
user 7 has a right swipe on dish 1 (the swipe is deleted, the dish counters of
the dish stay 1). -/
theorem C10_witness :
    (delete_match_view c9db 7 1).dishes = c9db.dishes ∧
    (delete_match_view c9db 7 1).blacklist = c9db.blacklist ∧
    ((∀ s ∈ c9db.swipes, ¬(s.user = 7 ∧ s.dish = 1 ∧ s.direction = "right")) →
      delete_match_view c9db 7 1 = c9db) ∧
    (swipe_key_unique c9db.swipes →
      ∀ s, s ∈ (delete_match_view c9db 7 1).swipes ↔
        (s ∈ c9db.swipes ∧ ¬(s.user = 7 ∧ s.dish = 1 ∧ s.direction = "right"))) :=
  C10_delete_frame c9db 7 1

end FoodSwipe
